import Mathlib

/-!
Verification of the RudderStack RETL sync client
(`rudder_dagster/resources/rudderstack.py`).

The HTTP world is modelled as an oracle: for `make_request`, a function
`Nat → RawResponse` giving the raw outcome of each successive attempt;
for `poll_sync`, a function `Nat → Nat → RawResponse` giving, for each
poll iteration, the raw outcome of each HTTP attempt of that iteration.
Each operation returns the trace of externally visible events (HTTP
requests issued, sleeps performed) together with its result.
-/

namespace RudderDagster

/-- Status constants of `RETLSyncStatus`. -/
def RETLSyncStatus.RUNNING : String := "running"

def RETLSyncStatus.SUCCEEDED : String := "succeeded"

def RETLSyncStatus.FAILED : String := "failed"

/-- Sync-type constants of `RETLSyncType`. -/
def RETLSyncType.INCREMENTAL : String := "incremental"

def RETLSyncType.FULL : String := "full"

def DEFAULT_POLL_INTERVAL_SECONDS : ℚ := 10

def DEFAULT_REQUEST_MAX_RETRIES : Nat := 3

def DEFAULT_RETRY_DELAY : ℚ := 1

def DEFAULT_REQUEST_TIMEOUT : Nat := 15

/-- A parsed JSON object body, restricted to the string-valued fields the
client reads (`syncId`, `status`, `error`): a Python dict as an
association list (first binding wins, as dict keys are unique). -/
abbrev JObj := List (String × String)

/-- Python `d[k]` / `d.get(k, None)` lookup, as an `Option`. -/
def jget (o : JObj) (k : String) : Option String :=
  (o.find? (fun p => p.1 == k)).map (fun p => p.2)

/-- Raw outcome of one `requests.request` call:
either the call raised (connection error, timeout, ...), or it produced a
response with an HTTP status code and a body that either parses as JSON
or does not. -/
inductive RawResponse where
  | exception : RawResponse
  | status (code : Nat) (body : Option JObj) : RawResponse
deriving DecidableEq

/-- `Response.raise_for_status()` raises for 4xx and 5xx codes. -/
def raiseForStatusRaises (code : Nat) : Bool :=
  400 ≤ code && code ≤ 599

/-- A transport-level failure as the spec uses the term: the exchange
itself failed or the response status is an error status. -/
def isTransportFailure : RawResponse → Bool
  | .exception => true
  | .status code _ => raiseForStatusRaises code

/-- Classification of one attempt by the `try`/`except requests.RequestException`
block of `make_request`: an exception from `requests.request`, an error
status from `raise_for_status()`, and a JSON-decoding failure of
`response.json()` (`requests.exceptions.JSONDecodeError`, a
`RequestException` subclass) are all caught; a parsed body is returned. -/
def attemptOutcome : RawResponse → Except Unit JObj
  | .exception => .error ()
  | .status code body =>
    if raiseForStatusRaises code then .error ()
    else
      match body with
      | some j => .ok j
      | none => .error ()

/-- Exceptions the client can raise: `dagster.Failure` with its message,
or a Python `KeyError` from a dict subscript on a missing key. -/
inductive PyError where
  | failure (msg : String) : PyError
  | keyError (key : String) : PyError
deriving DecidableEq

/-- Externally visible events: an HTTP request issued (endpoint, method,
JSON payload actually attached) and a timed sleep. -/
inductive Event where
  | request (endpoint method : String) (data : Option JObj) : Event
  | sleep (d : ℚ) : Event
deriving DecidableEq

/-- Configuration fields of `BaseRudderStackResource`. -/
structure BaseRudderStackResource where
  request_max_retries : Nat
  request_retry_delay : ℚ
  request_timeout : Nat
  poll_interval : ℚ

/-- Configuration fields of `RudderStackRETLResource`. The source declares
`sync_poll_interval` as an `int` field; it is the poll-interval duration
the spec calls `poll_interval`, modelled as `ℚ` like the other durations. -/
structure RudderStackRETLResource extends BaseRudderStackResource where
  access_token : String
  rs_cloud_url : String
  sync_poll_interval : ℚ

/-- Python truthiness of the `data` argument in `if data:`: `None` and the
empty dict are falsy, so no `json` payload is attached. -/
def truthyData : Option JObj → Option JObj
  | none => none
  | some [] => none
  | some d => some d

/-- The retry loop of `make_request`. The source counts `num_retries`
upward from `0` and breaks when `num_retries == request_max_retries`;
here `gas = request_max_retries - num_retries` counts the remaining
retries downward, so the `num_retries == request_max_retries` test is
`gas == 0`, and `make_request` starts the loop with
`gas = request_max_retries`. Each iteration issues the request; on a
caught `RequestException` with gas left it sleeps `request_retry_delay`
and retries; with no gas left it raises
`Failure("Exceeded max number of retries.")`. -/
def make_requestGo (cfg : BaseRudderStackResource) (endpoint method : String)
    (data : Option JObj) (world : Nat → RawResponse) :
    Nat → Nat → List Event × Except PyError JObj
  | num_retries, gas =>
    match attemptOutcome (world num_retries) with
    | .ok j => ([.request endpoint method (truthyData data)], .ok j)
    | .error _ =>
      match gas with
      | 0 =>
        ([.request endpoint method (truthyData data)],
          .error (.failure "Exceeded max number of retries."))
      | g + 1 =>
        let rest := make_requestGo cfg endpoint method data world (num_retries + 1) g
        (.request endpoint method (truthyData data) ::
          .sleep cfg.request_retry_delay :: rest.1, rest.2)

/-- `BaseRudderStackResource.make_request`: the URL is the configured base
joined with `endpoint`; the trace records the endpoint, the method and
the attached payload of every attempt. -/
def make_request (cfg : BaseRudderStackResource) (endpoint method : String)
    (data : Option JObj) (world : Nat → RawResponse) :
    List Event × Except PyError JObj :=
  make_requestGo cfg endpoint method data world 0 cfg.request_max_retries

/-- The endpoint `start_sync` posts to. -/
def startEndpoint (conn_id : String) : String :=
  "/v2/retl-connections/" ++ conn_id ++ "/start"

/-- `RudderStackRETLResource.start_sync`: posts
`{"syncType": sync_type}` to the start endpoint and subscripts the parsed
body with `["syncId"]`; a missing key is a Python `KeyError`. -/
def start_sync (cfg : RudderStackRETLResource) (conn_id sync_type : String)
    (world : Nat → RawResponse) : List Event × Except PyError String :=
  let r := make_request cfg.toBaseRudderStackResource (startEndpoint conn_id)
    "POST" (some [("syncType", sync_type)]) world
  match r.2 with
  | .error e => (r.1, .error e)
  | .ok resp =>
    match jget resp "syncId" with
    | none => (r.1, .error (.keyError "syncId"))
    | some sync_id => (r.1, .ok sync_id)

/-- The `status_endpoint` string computed by `poll_sync`. -/
def status_endpoint (conn_id sync_id : String) : String :=
  "/v2/retl-connections/" ++ conn_id ++ "/syncs/" ++ sync_id

/-- Python `str` of `resp.get("error", None)` as interpolated by the
f-string: `str(None)` is `"None"`. -/
def pyStr : Option String → String
  | none => "None"
  | some s => s

/-- The `Failure` message raised by `poll_sync` on a `failed` status. -/
def syncFailedMsg (conn_id sync_id : String) (error_msg : Option String) : String :=
  "Sync for retl connection: " ++ conn_id ++ ", syncId: " ++ sync_id ++
    " failed with error: " ++ pyStr error_msg

/-- Result of the (potentially unbounded) `poll_sync` loop: returned
normally, raised an exception, or — a modelling artifact only — ran out
of the fuel bounding the unbounded `while True`. -/
inductive PollResult where
  | ok : PollResult
  | error (e : PyError) : PollResult
  | fuelOut : PollResult
deriving DecidableEq

/-- The `while True` loop of `poll_sync`, bounded by `fuel` iterations
(the source loop is unbounded; `fuelOut` marks an unfinished run).
Each iteration GETs the status endpoint via `make_request`; an exception
from `make_request` propagates; `resp["status"]` raises `KeyError` when
missing; `succeeded` breaks out of the loop, `failed` raises `Failure`
with the optional `resp.get("error", None)` detail, and any other status
value falls through to `time.sleep(self.sync_poll_interval)` and another
iteration. `iter` numbers the iterations for the oracle. -/
def poll_syncGo (cfg : RudderStackRETLResource) (conn_id sync_id : String)
    (world : Nat → Nat → RawResponse) : Nat → Nat → List Event × PollResult
  | _iter, 0 => ([], .fuelOut)
  | iter, fuel + 1 =>
    let r := make_request cfg.toBaseRudderStackResource
      (status_endpoint conn_id sync_id) "GET" none (world iter)
    match r.2 with
    | .error e => (r.1, .error e)
    | .ok resp =>
      match jget resp "status" with
      | none => (r.1, .error (.keyError "status"))
      | some sync_status =>
        if sync_status = RETLSyncStatus.SUCCEEDED then (r.1, .ok)
        else if sync_status = RETLSyncStatus.FAILED then
          (r.1, .error (.failure
            (syncFailedMsg conn_id sync_id (jget resp "error"))))
        else
          let rest := poll_syncGo cfg conn_id sync_id world (iter + 1) fuel
          (r.1 ++ .sleep cfg.sync_poll_interval :: rest.1, rest.2)

/-- `RudderStackRETLResource.poll_sync`, starting at iteration 0. -/
def poll_sync (cfg : RudderStackRETLResource) (conn_id sync_id : String)
    (world : Nat → Nat → RawResponse) (fuel : Nat) : List Event × PollResult :=
  poll_syncGo cfg conn_id sync_id world 0 fuel

/-- `RudderStackRETLResource.start_and_poll`: `start_sync`, then — only
when it returned a sync id — `poll_sync` on that id; an exception from
`start_sync` propagates with no poll performed. -/
def start_and_poll (cfg : RudderStackRETLResource) (conn_id sync_type : String)
    (startWorld : Nat → RawResponse) (pollWorld : Nat → Nat → RawResponse)
    (fuel : Nat) : List Event × PollResult :=
  let r := start_sync cfg conn_id sync_type startWorld
  match r.2 with
  | .error e => (r.1, .error e)
  | .ok sync_id =>
    let p := poll_sync cfg conn_id sync_id pollWorld fuel
    (r.1 ++ p.1, p.2)

/-! ### Trace observations -/

/-- Is this event an HTTP request? -/
def isRequest : Event → Bool
  | .request .. => true
  | .sleep _ => false

/-- Number of HTTP requests in a trace. -/
def countRequests (evs : List Event) : Nat :=
  (evs.filter isRequest).length

/-- Is this event a sleep? -/
def isSleep : Event → Bool
  | .request .. => false
  | .sleep _ => true

/-- Number of sleeps in a trace. -/
def countSleeps (evs : List Event) : Nat :=
  (evs.filter isSleep).length

/-- Every request in the trace targets the given endpoint with the given
method (sleeps are ignored). -/
def requestLike (ep m : String) : Event → Bool
  | .request ep' m' _ => ep' == ep && m' == m
  | .sleep _ => true

/-- The trace of `n` consecutive "attempt, then sleep `d`" rounds against
one endpoint: the shape of both the failed-attempt rounds of
`make_request` (with `d` the retry delay) and the `running` rounds of
`poll_sync` (with `d` the poll interval and each round a one-attempt
request). -/
def roundsTrace (ep m : String) (data : Option JObj) (d : ℚ) : Nat → List Event
  | 0 => []
  | n + 1 => .request ep m data :: .sleep d :: roundsTrace ep m data d n

/-! ### Concrete fixtures for witnesses and counterexamples -/

/-- A concrete resource configuration: all numeric fields at their
documented defaults. -/
def cfgA : RudderStackRETLResource :=
  { request_max_retries := DEFAULT_REQUEST_MAX_RETRIES
    request_retry_delay := DEFAULT_RETRY_DELAY
    request_timeout := DEFAULT_REQUEST_TIMEOUT
    poll_interval := DEFAULT_POLL_INTERVAL_SECONDS
    access_token := "token"
    rs_cloud_url := "https://api.rudderstack.com"
    sync_poll_interval := DEFAULT_POLL_INTERVAL_SECONDS }

/-- A start world that answers `{"syncId": "abc123"}` on every attempt. -/
def startWorldOk : Nat → RawResponse :=
  fun _ => .status 200 (some [("syncId", "abc123")])

/-- A poll world for Scenario C: `running, running, succeeded`. -/
def worldRRS : Nat → Nat → RawResponse
  | 0, _ => .status 200 (some [("status", "running")])
  | 1, _ => .status 200 (some [("status", "running")])
  | _, _ => .status 200 (some [("status", "succeeded")])

/-- A poll world for Scenario D: `running`, then `failed` with
`error: "quota exceeded"`. -/
def worldRF : Nat → Nat → RawResponse
  | 0, _ => .status 200 (some [("status", "running")])
  | _, _ => .status 200 (some [("status", "failed"), ("error", "quota exceeded")])

/-- A poll world for Scenario F: `paused` (unknown status), then
`succeeded`. -/
def worldPaused : Nat → Nat → RawResponse
  | 0, _ => .status 200 (some [("status", "paused")])
  | _, _ => .status 200 (some [("status", "succeeded")])

/-- A world where every attempt fails at transport level (HTTP 500). -/
def world500 : Nat → RawResponse :=
  fun _ => .status 500 none

/-- A world where every attempt yields HTTP 200 with an unparseable body. -/
def worldBadJson : Nat → RawResponse :=
  fun _ => .status 200 none

/-- A world whose first two attempts fail (exception, then HTTP 503) and
whose third succeeds with `{"status": "running"}`. -/
def worldFFS : Nat → RawResponse
  | 0 => .exception
  | 1 => .status 503 none
  | _ => .status 200 (some [("status", "running")])

/-! ### Trace bookkeeping lemmas -/

theorem countRequests_append (a b : List Event) :
    countRequests (a ++ b) = countRequests a + countRequests b := by
  simp [countRequests, List.filter_append]

theorem countSleeps_append (a b : List Event) :
    countSleeps (a ++ b) = countSleeps a + countSleeps b := by
  simp [countSleeps, List.filter_append]

theorem countRequests_roundsTrace (ep m : String) (data : Option JObj) (d : ℚ)
    (n : Nat) : countRequests (roundsTrace ep m data d n) = n := by
  induction n with
  | zero => rfl
  | succ k ih => simp [roundsTrace, countRequests, isRequest] at ih ⊢; exact ih

theorem countSleeps_roundsTrace (ep m : String) (data : Option JObj) (d : ℚ)
    (n : Nat) : countSleeps (roundsTrace ep m data d n) = n := by
  induction n with
  | zero => rfl
  | succ k ih => simp [roundsTrace, countSleeps, isSleep] at ih ⊢; exact ih

theorem requestLike_roundsTrace (ep m : String) (data : Option JObj) (d : ℚ)
    (n : Nat) : (roundsTrace ep m data d n).all (requestLike ep m) = true := by
  induction n with
  | zero => rfl
  | succ k ih => simp [roundsTrace, requestLike] at ih ⊢; exact ih

/-- A transport failure is classified as a caught `RequestException`. -/
theorem attemptOutcome_of_transportFailure (r : RawResponse)
    (h : isTransportFailure r = true) : attemptOutcome r = .error () := by
  cases r with
  | exception => rfl
  | status code body =>
    simp [isTransportFailure] at h
    simp [attemptOutcome, h]

/-! ### `make_request` retry-loop lemmas -/

/-- If every attempt from `num_retries` through `num_retries + gas` is
classified as failed, the loop performs those `gas + 1` attempts with a
retry-delay sleep between consecutive ones and raises the exhaustion
`Failure`. -/
theorem make_requestGo_exhausts (cfg : BaseRudderStackResource) (ep m : String)
    (data : Option JObj) (world : Nat → RawResponse) :
    ∀ gas num_retries,
    (∀ i ≤ gas, attemptOutcome (world (num_retries + i)) = .error ()) →
    make_requestGo cfg ep m data world num_retries gas =
      (roundsTrace ep m (truthyData data) cfg.request_retry_delay gas ++
        [.request ep m (truthyData data)],
       .error (.failure "Exceeded max number of retries.")) := by
  intro gas
  induction gas with
  | zero =>
    intro nr h
    have h0 := h 0 (Nat.le_refl 0)
    rw [Nat.add_zero] at h0
    simp [make_requestGo, h0, roundsTrace]
  | succ g ih =>
    intro nr h
    have h0 := h 0 (Nat.zero_le _)
    rw [Nat.add_zero] at h0
    have hrest := ih (nr + 1) (fun i hi => by
      have hstep := h (i + 1) (Nat.succ_le_succ hi)
      rwa [show nr + (i + 1) = nr + 1 + i by omega] at hstep)
    simp [make_requestGo, h0, hrest, roundsTrace]

/-- If the first `K` attempts (from `num_retries`) fail and attempt `K`
succeeds with parsed body `j`, and at least `K` retries remain, the loop
performs exactly `K + 1` attempts and returns `j`. -/
theorem make_requestGo_succeeds (cfg : BaseRudderStackResource) (ep m : String)
    (data : Option JObj) (world : Nat → RawResponse) (j : JObj) :
    ∀ K gas num_retries, K ≤ gas →
    (∀ i, i < K → attemptOutcome (world (num_retries + i)) = .error ()) →
    attemptOutcome (world (num_retries + K)) = .ok j →
    make_requestGo cfg ep m data world num_retries gas =
      (roundsTrace ep m (truthyData data) cfg.request_retry_delay K ++
        [.request ep m (truthyData data)], .ok j) := by
  intro K
  induction K with
  | zero =>
    intro gas nr _ _ hok
    rw [Nat.add_zero] at hok
    cases gas with
    | zero => simp [make_requestGo, hok, roundsTrace]
    | succ g => simp [make_requestGo, hok, roundsTrace]
  | succ k ih =>
    intro gas nr hle hfail hok
    obtain ⟨g, rfl⟩ : ∃ g, gas = g + 1 :=
      ⟨gas - 1, by omega⟩
    have h0 := hfail 0 (Nat.succ_pos k)
    rw [Nat.add_zero] at h0
    have hrest := ih g (nr + 1) (by omega)
      (fun i hi => by
        have hstep := hfail (i + 1) (Nat.succ_lt_succ hi)
        rwa [show nr + (i + 1) = nr + 1 + i by omega] at hstep)
      (by rwa [show nr + 1 + k = nr + (k + 1) by omega])
    simp [make_requestGo, h0, hrest, roundsTrace]

/-- Every request in a `make_request` trace targets the requested
endpoint with the requested method. -/
theorem make_requestGo_requestLike (cfg : BaseRudderStackResource)
    (ep m : String) (data : Option JObj) (world : Nat → RawResponse) :
    ∀ gas num_retries,
    (make_requestGo cfg ep m data world num_retries gas).1.all
      (requestLike ep m) = true := by
  intro gas
  induction gas with
  | zero =>
    intro nr
    cases hr : attemptOutcome (world nr) with
    | ok j => simp [make_requestGo, hr, requestLike]
    | error e => simp [make_requestGo, hr, requestLike]
  | succ g ih =>
    intro nr
    cases hr : attemptOutcome (world nr) with
    | ok j => simp [make_requestGo, hr, requestLike]
    | error e => simpa [make_requestGo, hr, requestLike] using ih (nr + 1)

/-! ### `poll_sync` step and chain lemmas -/

/-- When the first attempt already yields a parsed body, `make_request`
issues exactly one request and returns it. -/
theorem make_request_first_attempt_ok (cfg : BaseRudderStackResource)
    (ep m : String) (data : Option JObj) (world : Nat → RawResponse) (j : JObj)
    (h : attemptOutcome (world 0) = .ok j) :
    make_request cfg ep m data world =
      ([.request ep m (truthyData data)], .ok j) := by
  have hs := make_requestGo_succeeds cfg ep m data world j 0
    cfg.request_max_retries 0 (Nat.zero_le _)
    (fun i hi => absurd hi (Nat.not_lt_zero i)) (by simpa using h)
  simpa [roundsTrace, make_request] using hs

/-- One iteration of the poll loop observing `succeeded`: log and break. -/
theorem poll_syncGo_succeeded_step (cfg : RudderStackRETLResource)
    (conn_id sync_id : String) (world : Nat → Nat → RawResponse)
    (iter fuel : Nat) (b : JObj)
    (hb : attemptOutcome (world iter 0) = .ok b)
    (hs : jget b "status" = some RETLSyncStatus.SUCCEEDED) :
    poll_syncGo cfg conn_id sync_id world iter (fuel + 1) =
      ([.request (status_endpoint conn_id sync_id) "GET" none], .ok) := by
  have hmr := make_request_first_attempt_ok cfg.toBaseRudderStackResource
    (status_endpoint conn_id sync_id) "GET" none (world iter) b hb
  simp [poll_syncGo, hmr, hs, truthyData]

/-- One iteration of the poll loop observing `failed`: raise `Failure`
with the optional `error` detail of the same response. -/
theorem poll_syncGo_failed_step (cfg : RudderStackRETLResource)
    (conn_id sync_id : String) (world : Nat → Nat → RawResponse)
    (iter fuel : Nat) (b : JObj)
    (hb : attemptOutcome (world iter 0) = .ok b)
    (hs : jget b "status" = some RETLSyncStatus.FAILED) :
    poll_syncGo cfg conn_id sync_id world iter (fuel + 1) =
      ([.request (status_endpoint conn_id sync_id) "GET" none],
        .error (.failure (syncFailedMsg conn_id sync_id (jget b "error")))) := by
  have hmr := make_request_first_attempt_ok cfg.toBaseRudderStackResource
    (status_endpoint conn_id sync_id) "GET" none (world iter) b hb
  have hne : RETLSyncStatus.FAILED ≠ RETLSyncStatus.SUCCEEDED := by decide
  simp [poll_syncGo, hmr, hs, hne, truthyData]

/-- One iteration of the poll loop observing any status that is neither
`succeeded` nor `failed` (`running` or an unknown value): sleep
`sync_poll_interval` and run another iteration. -/
theorem poll_syncGo_continue_step (cfg : RudderStackRETLResource)
    (conn_id sync_id : String) (world : Nat → Nat → RawResponse)
    (iter fuel : Nat) (b : JObj) (s : String)
    (hb : attemptOutcome (world iter 0) = .ok b)
    (hs : jget b "status" = some s)
    (hns : s ≠ RETLSyncStatus.SUCCEEDED) (hnf : s ≠ RETLSyncStatus.FAILED) :
    poll_syncGo cfg conn_id sync_id world iter (fuel + 1) =
      (.request (status_endpoint conn_id sync_id) "GET" none ::
        .sleep cfg.sync_poll_interval ::
        (poll_syncGo cfg conn_id sync_id world (iter + 1) fuel).1,
       (poll_syncGo cfg conn_id sync_id world (iter + 1) fuel).2) := by
  have hmr := make_request_first_attempt_ok cfg.toBaseRudderStackResource
    (status_endpoint conn_id sync_id) "GET" none (world iter) b hb
  simp [poll_syncGo, hmr, hs, hns, hnf, truthyData]

/-- One iteration of the poll loop whose `make_request` raises: the
exception propagates out of `poll_sync` unchanged. -/
theorem poll_syncGo_error_step (cfg : RudderStackRETLResource)
    (conn_id sync_id : String) (world : Nat → Nat → RawResponse)
    (iter fuel : Nat) (e : PyError)
    (h : (make_request cfg.toBaseRudderStackResource
      (status_endpoint conn_id sync_id) "GET" none (world iter)).2 = .error e) :
    poll_syncGo cfg conn_id sync_id world iter (fuel + 1) =
      ((make_request cfg.toBaseRudderStackResource
        (status_endpoint conn_id sync_id) "GET" none (world iter)).1,
       .error e) := by
  simp [poll_syncGo, h]

/-- A run of `n` consecutive non-terminal observations, each answered on
its first HTTP attempt: the loop contributes `n` request-and-sleep rounds
and continues at iteration `iter + n` with `n` fewer units of fuel. -/
theorem poll_syncGo_running_chain (cfg : RudderStackRETLResource)
    (conn_id sync_id : String) (world : Nat → Nat → RawResponse) :
    ∀ n iter fuel,
    (∀ i, i < n → ∃ b, attemptOutcome (world (iter + i) 0) = .ok b ∧
      ∃ s, jget b "status" = some s ∧
        s ≠ RETLSyncStatus.SUCCEEDED ∧ s ≠ RETLSyncStatus.FAILED) →
    poll_syncGo cfg conn_id sync_id world iter (fuel + n) =
      (roundsTrace (status_endpoint conn_id sync_id) "GET" none
          cfg.sync_poll_interval n ++
        (poll_syncGo cfg conn_id sync_id world (iter + n) fuel).1,
       (poll_syncGo cfg conn_id sync_id world (iter + n) fuel).2) := by
  intro n
  induction n with
  | zero => intro iter fuel _; simp [roundsTrace]
  | succ k ih =>
    intro iter fuel h
    obtain ⟨b, hb, s, hs, hns, hnf⟩ := h 0 (Nat.succ_pos k)
    rw [Nat.add_zero] at hb
    have hstep := poll_syncGo_continue_step cfg conn_id sync_id world iter
      (fuel + k) b s hb hs hns hnf
    have hrest := ih (iter + 1) fuel (fun i hi => by
      have hshift := h (i + 1) (Nat.succ_lt_succ hi)
      rwa [show iter + (i + 1) = iter + 1 + i by omega] at hshift)
    rw [show fuel + (k + 1) = fuel + k + 1 by omega, hstep, hrest]
    rw [show iter + 1 + k = iter + (k + 1) by omega]
    simp [roundsTrace]

/-- Every request in a `poll_syncGo` trace is a GET on the status
endpoint of the fixed `(conn_id, sync_id)` pair. -/
theorem poll_syncGo_requestLike (cfg : RudderStackRETLResource)
    (conn_id sync_id : String) (world : Nat → Nat → RawResponse) :
    ∀ fuel iter, (poll_syncGo cfg conn_id sync_id world iter fuel).1.all
      (requestLike (status_endpoint conn_id sync_id) "GET") = true := by
  intro fuel
  induction fuel with
  | zero => intro iter; rfl
  | succ f ih =>
    intro iter
    have hmr : (make_request cfg.toBaseRudderStackResource
        (status_endpoint conn_id sync_id) "GET" none (world iter)).1.all
        (requestLike (status_endpoint conn_id sync_id) "GET") = true :=
      make_requestGo_requestLike _ _ _ _ _ _ 0
    rw [poll_syncGo]
    cases hres : (make_request cfg.toBaseRudderStackResource
        (status_endpoint conn_id sync_id) "GET" none (world iter)).2 with
    | error e => simpa [hres] using hmr
    | ok resp =>
      cases hj : jget resp "status" with
      | none => simpa [hres, hj] using hmr
      | some s =>
        by_cases hsu : s = RETLSyncStatus.SUCCEEDED
        · simpa [hres, hj, hsu] using hmr
        · by_cases hfa : s = RETLSyncStatus.FAILED
          · simpa [hres, hj, hsu, hfa] using hmr
          · have hall := ih (iter + 1)
            simp [hres, hj, hsu, hfa, List.all_append, requestLike] at hmr hall ⊢
            exact ⟨hmr, hall⟩

/-- The trace of `start_sync` is exactly the trace of its single
`make_request` call. -/
theorem start_sync_trace (cfg : RudderStackRETLResource)
    (conn_id sync_type : String) (world : Nat → RawResponse) :
    (start_sync cfg conn_id sync_type world).1 =
      (make_request cfg.toBaseRudderStackResource (startEndpoint conn_id)
        "POST" (some [("syncType", sync_type)]) world).1 := by
  rw [start_sync]
  cases hres : (make_request cfg.toBaseRudderStackResource
      (startEndpoint conn_id) "POST" (some [("syncType", sync_type)])
      world).2 with
  | error e => simp [hres]
  | ok resp =>
    cases hj : jget resp "syncId" with
    | none => simp [hres, hj]
    | some s => simp [hres, hj]

/-- When `start_sync` raises, `start_and_poll` propagates the exception
and its trace is exactly the start trace. -/
theorem start_and_poll_error_eq (cfg : RudderStackRETLResource)
    (conn_id sync_type : String) (startWorld : Nat → RawResponse)
    (pollWorld : Nat → Nat → RawResponse) (fuel : Nat) (e : PyError)
    (h : (start_sync cfg conn_id sync_type startWorld).2 = .error e) :
    start_and_poll cfg conn_id sync_type startWorld pollWorld fuel =
      ((start_sync cfg conn_id sync_type startWorld).1, .error e) := by
  simp [start_and_poll, h]

/-- When `start_sync` returns a sync id, `start_and_poll` continues with
`poll_sync` on that very id and concatenates the traces. -/
theorem start_and_poll_ok_eq (cfg : RudderStackRETLResource)
    (conn_id sync_type : String) (startWorld : Nat → RawResponse)
    (pollWorld : Nat → Nat → RawResponse) (fuel : Nat) (s : String)
    (h : (start_sync cfg conn_id sync_type startWorld).2 = .ok s) :
    start_and_poll cfg conn_id sync_type startWorld pollWorld fuel =
      ((start_sync cfg conn_id sync_type startWorld).1 ++
        (poll_sync cfg conn_id s pollWorld fuel).1,
       (poll_sync cfg conn_id s pollWorld fuel).2) := by
  simp [start_and_poll, h]

/-! ### Claims -/

/-- C1: with `request_max_retries = N`, if the first `N + 1` attempts all
fail at transport level, `make_request` performs exactly `N + 1` attempts
(sleeping `request_retry_delay` between consecutive ones, as the
`roundsTrace` shape shows) and raises the exhaustion `Failure`; if the
first `K ≤ N` attempts fail and attempt `K + 1` succeeds, it performs
exactly `K + 1` attempts and returns the parsed body of the successful
response. -/
theorem make_request_attempt_counts (cfg : BaseRudderStackResource)
    (ep m : String) (data : Option JObj) (world : Nat → RawResponse) :
    ((∀ i ≤ cfg.request_max_retries, isTransportFailure (world i) = true) →
      make_request cfg ep m data world =
        (roundsTrace ep m (truthyData data) cfg.request_retry_delay
            cfg.request_max_retries ++ [.request ep m (truthyData data)],
          .error (.failure "Exceeded max number of retries.")) ∧
      countRequests (make_request cfg ep m data world).1 =
        cfg.request_max_retries + 1) ∧
    (∀ K, K ≤ cfg.request_max_retries → ∀ j : JObj,
      (∀ i, i < K → isTransportFailure (world i) = true) →
      attemptOutcome (world K) = .ok j →
      make_request cfg ep m data world =
        (roundsTrace ep m (truthyData data) cfg.request_retry_delay K ++
          [.request ep m (truthyData data)], .ok j) ∧
      countRequests (make_request cfg ep m data world).1 = K + 1) := by
  constructor
  · intro h
    have heq := make_requestGo_exhausts cfg ep m data world
      cfg.request_max_retries 0
      (fun i hi => by
        rw [Nat.zero_add]
        exact attemptOutcome_of_transportFailure _ (h i hi))
    have heq' : make_request cfg ep m data world =
      (roundsTrace ep m (truthyData data) cfg.request_retry_delay
          cfg.request_max_retries ++ [.request ep m (truthyData data)],
        .error (.failure "Exceeded max number of retries.")) := heq
    refine ⟨heq', ?_⟩
    rw [heq', countRequests_append, countRequests_roundsTrace]
    rfl
  · intro K hK j hfail hok
    have heq := make_requestGo_succeeds cfg ep m data world j K
      cfg.request_max_retries 0 hK
      (fun i hi => by
        rw [Nat.zero_add]
        exact attemptOutcome_of_transportFailure _ (hfail i hi))
      (by rwa [Nat.zero_add])
    have heq' : make_request cfg ep m data world =
      (roundsTrace ep m (truthyData data) cfg.request_retry_delay K ++
        [.request ep m (truthyData data)], .ok j) := heq
    refine ⟨heq', ?_⟩
    rw [heq', countRequests_append, countRequests_roundsTrace]
    rfl

/-- Witness for C1: with the default budget of 3 retries, four HTTP 500
responses exhaust the budget; an exception and an HTTP 503 followed by a
parsed success take exactly 3 attempts. -/
theorem make_request_attempt_counts_witness :
    make_request cfgA.toBaseRudderStackResource "/e" "GET" none world500 =
      (roundsTrace "/e" "GET" none 1 3 ++ [.request "/e" "GET" none],
        .error (.failure "Exceeded max number of retries.")) ∧
    make_request cfgA.toBaseRudderStackResource "/e" "GET" none worldFFS =
      (roundsTrace "/e" "GET" none 1 2 ++ [.request "/e" "GET" none],
        .ok [("status", "running")]) :=
  ⟨((make_request_attempt_counts cfgA.toBaseRudderStackResource "/e" "GET"
      none world500).1 (by decide)).1,
   ((make_request_attempt_counts cfgA.toBaseRudderStackResource "/e" "GET"
      none worldFFS).2 2 (by decide) [("status", "running")] (by decide)
      (by rfl)).1⟩

/-- C10: an attempt whose HTTP exchange succeeds with a success status
but whose body does not parse as JSON is classified exactly like a
transport failure (`requests.exceptions.JSONDecodeError` is a
`RequestException`): it is retried after the retry delay under the same
budget, and when every attempt fails this way `make_request` raises the
exhaustion `Failure` — never a distinct malformed-response error and
never a return. -/
theorem make_request_unparseable_body_retried (cfg : BaseRudderStackResource)
    (ep m : String) (data : Option JObj) (world : Nat → RawResponse) :
    (∀ code, raiseForStatusRaises code = false →
      attemptOutcome (.status code none) = .error ()) ∧
    ((∀ i ≤ cfg.request_max_retries, ∃ code,
        raiseForStatusRaises code = false ∧ world i = .status code none) →
      make_request cfg ep m data world =
        (roundsTrace ep m (truthyData data) cfg.request_retry_delay
            cfg.request_max_retries ++ [.request ep m (truthyData data)],
          .error (.failure "Exceeded max number of retries."))) := by
  constructor
  · intro code hc
    simp [attemptOutcome, hc]
  · intro h
    apply make_requestGo_exhausts
    intro i hi
    obtain ⟨c, hc, hw⟩ := h i hi
    rw [Nat.zero_add, hw]
    simp [attemptOutcome, hc]

/-- Witness for C10: every attempt is HTTP 200 with an unparseable body;
with the default budget the exhaustion `Failure` is raised after 4
attempts. -/
theorem make_request_unparseable_body_retried_witness :
    attemptOutcome (.status 200 none) = .error () ∧
    make_request cfgA.toBaseRudderStackResource "/e" "GET" none worldBadJson =
      (roundsTrace "/e" "GET" none 1 3 ++ [.request "/e" "GET" none],
        .error (.failure "Exceeded max number of retries.")) :=
  ⟨(make_request_unparseable_body_retried cfgA.toBaseRudderStackResource
      "/e" "GET" none worldBadJson).1 200 (by decide),
   (make_request_unparseable_body_retried cfgA.toBaseRudderStackResource
      "/e" "GET" none worldBadJson).2
     (fun i _ => ⟨200, by decide, rfl⟩)⟩

/-- C3: when the start request's HTTP exchange succeeds but the parsed
body has no `syncId` field, `start_sync` raises `KeyError("syncId")`
(fatal, not retried) and never returns a value. -/
theorem start_sync_missing_syncId (cfg : RudderStackRETLResource)
    (conn_id sync_type : String) (world : Nat → RawResponse) (resp : JObj)
    (hok : (make_request cfg.toBaseRudderStackResource (startEndpoint conn_id)
        "POST" (some [("syncType", sync_type)]) world).2 = .ok resp)
    (hmiss : jget resp "syncId" = none) :
    (start_sync cfg conn_id sync_type world).2 = .error (.keyError "syncId") ∧
    ∀ s, (start_sync cfg conn_id sync_type world).2 ≠ .ok s := by
  have hres : (start_sync cfg conn_id sync_type world).2 =
      .error (.keyError "syncId") := by
    rw [start_sync]
    simp only [hok, hmiss]
  exact ⟨hres, fun s hs => by rw [hres] at hs; exact Except.noConfusion hs⟩

/-- Witness for C3: a start response `{"ok": "1"}` (HTTP 200, parsed, no
`syncId`) makes `start_sync` raise `KeyError("syncId")`. -/
theorem start_sync_missing_syncId_witness :
    (start_sync cfgA "c1" "incremental"
      (fun _ => .status 200 (some [("ok", "1")]))).2 =
      .error (.keyError "syncId") :=
  (start_sync_missing_syncId cfgA "c1" "incremental"
    (fun _ => .status 200 (some [("ok", "1")])) [("ok", "1")]
    (by rfl) (by rfl)).1

/-- C2 counterexample: on a poll response with the unknown status
`"paused"` the source does not fail fast — it sleeps and issues a further
status request (here the second poll answers `succeeded`, so the run even
returns normally after two status requests). -/
theorem poll_sync_paused_counterexample :
    poll_sync cfgA "c1" "s1" worldPaused 2 =
      ([.request (status_endpoint "c1" "s1") "GET" none, .sleep 10,
        .request (status_endpoint "c1" "s1") "GET" none], .ok) ∧
    countRequests (poll_sync cfgA "c1" "s1" worldPaused 2).1 = 2 := by
  decide

/-- C2 (amended): a poll response whose status is neither `succeeded` nor
`failed` — including unknown values such as `"paused"` — is treated like
`running`: `poll_sync` raises nothing at that observation, sleeps
`sync_poll_interval`, and issues another status request. -/
theorem poll_sync_unknown_status_keeps_polling (cfg : RudderStackRETLResource)
    (conn_id sync_id : String) (world : Nat → Nat → RawResponse)
    (fuel : Nat) (b : JObj) (s : String)
    (hb : attemptOutcome (world 0 0) = .ok b)
    (hs : jget b "status" = some s)
    (hns : s ≠ RETLSyncStatus.SUCCEEDED) (hnf : s ≠ RETLSyncStatus.FAILED) :
    poll_sync cfg conn_id sync_id world (fuel + 1) =
      (.request (status_endpoint conn_id sync_id) "GET" none ::
        .sleep cfg.sync_poll_interval ::
        (poll_syncGo cfg conn_id sync_id world 1 fuel).1,
       (poll_syncGo cfg conn_id sync_id world 1 fuel).2) :=
  poll_syncGo_continue_step cfg conn_id sync_id world 0 fuel b s hb hs hns hnf

/-- Witness for the amended C2: a `"paused"` response makes `poll_sync`
sleep and continue into the next iteration (which here exhausts the
modelling fuel). -/
theorem poll_sync_unknown_status_keeps_polling_witness :
    poll_sync cfgA "c1" "s1" worldPaused 1 =
      ([.request (status_endpoint "c1" "s1") "GET" none, .sleep 10],
        .fuelOut) :=
  poll_sync_unknown_status_keeps_polling cfgA "c1" "s1" worldPaused 0
    [("status", "paused")] "paused" rfl rfl (by decide) (by decide)

/-- C4: the first `succeeded` observation (after `n` `running` ones) ends
the poll loop normally with exactly `n + 1` status requests and no
subsequent request; in particular Scenario C — poll sequence
`running, running, succeeded` — makes `start_and_poll` return normally
after exactly 3 status calls. -/
theorem poll_sync_stops_on_first_succeeded (cfg : RudderStackRETLResource)
    (conn_id sync_id : String) (world : Nat → Nat → RawResponse)
    (n fuel : Nat)
    (hrun : ∀ i, i < n → ∃ b, attemptOutcome (world i 0) = .ok b ∧
      jget b "status" = some RETLSyncStatus.RUNNING)
    (b : JObj) (hb : attemptOutcome (world n 0) = .ok b)
    (hsucc : jget b "status" = some RETLSyncStatus.SUCCEEDED) :
    (poll_sync cfg conn_id sync_id world (fuel + (n + 1)) =
      (roundsTrace (status_endpoint conn_id sync_id) "GET" none
          cfg.sync_poll_interval n ++
        [.request (status_endpoint conn_id sync_id) "GET" none], .ok) ∧
     countRequests
       (poll_sync cfg conn_id sync_id world (fuel + (n + 1))).1 = n + 1) ∧
    start_and_poll cfgA "c1" RETLSyncType.INCREMENTAL startWorldOk worldRRS 3 =
      ([.request (startEndpoint "c1") "POST"
          (some [("syncType", "incremental")]),
        .request (status_endpoint "c1" "abc123") "GET" none, .sleep 10,
        .request (status_endpoint "c1" "abc123") "GET" none, .sleep 10,
        .request (status_endpoint "c1" "abc123") "GET" none], .ok) := by
  refine ⟨?_, by decide⟩
  have hchain := poll_syncGo_running_chain cfg conn_id sync_id world n 0
    (fuel + 1) (fun i hi => by
      obtain ⟨b', hb', hs'⟩ := hrun i hi
      rw [Nat.zero_add]
      exact ⟨b', hb', RETLSyncStatus.RUNNING, hs', by decide, by decide⟩)
  have hstep := poll_syncGo_succeeded_step cfg conn_id sync_id world n fuel
    b hb hsucc
  have hps : poll_sync cfg conn_id sync_id world (fuel + (n + 1)) =
      poll_syncGo cfg conn_id sync_id world 0 ((fuel + 1) + n) := by
    rw [poll_sync, show fuel + (n + 1) = (fuel + 1) + n by omega]
  rw [Nat.zero_add] at hchain
  rw [hps, hchain, hstep]
  refine ⟨rfl, ?_⟩
  rw [countRequests_append, countRequests_roundsTrace]
  rfl

/-- Witness for C4: Scenario C at the `poll_sync` level — two `running`
responses then `succeeded` yield exactly 3 status requests and a normal
return. -/
theorem poll_sync_stops_on_first_succeeded_witness :
    poll_sync cfgA "c1" "abc123" worldRRS 3 =
      (roundsTrace (status_endpoint "c1" "abc123") "GET" none 10 2 ++
        [.request (status_endpoint "c1" "abc123") "GET" none], .ok) :=
  ((poll_sync_stops_on_first_succeeded cfgA "c1" "abc123" worldRRS 2 0
    (fun i hi => ⟨[("status", "running")], by
      interval_cases i <;> exact ⟨rfl, rfl⟩⟩)
    [("status", "succeeded")] rfl rfl).1).1

/-- C5: the first `failed` observation (after `n` `running` ones) makes
the poll loop raise the `SyncFailed` `Failure` carrying the connection
id, the sync id and the response's optional `error` detail forwarded
exactly (absent → `None`), with exactly `n + 1` status requests and no
further one; in particular Scenario D — `running`, then `failed` with
`error: "quota exceeded"` — makes `start_and_poll` raise it with detail
`"quota exceeded"` after exactly 2 status calls. -/
theorem poll_sync_stops_on_first_failed (cfg : RudderStackRETLResource)
    (conn_id sync_id : String) (world : Nat → Nat → RawResponse)
    (n fuel : Nat)
    (hrun : ∀ i, i < n → ∃ b, attemptOutcome (world i 0) = .ok b ∧
      jget b "status" = some RETLSyncStatus.RUNNING)
    (b : JObj) (hb : attemptOutcome (world n 0) = .ok b)
    (hfail : jget b "status" = some RETLSyncStatus.FAILED) :
    (poll_sync cfg conn_id sync_id world (fuel + (n + 1)) =
      (roundsTrace (status_endpoint conn_id sync_id) "GET" none
          cfg.sync_poll_interval n ++
        [.request (status_endpoint conn_id sync_id) "GET" none],
       .error (.failure (syncFailedMsg conn_id sync_id (jget b "error")))) ∧
     countRequests
       (poll_sync cfg conn_id sync_id world (fuel + (n + 1))).1 = n + 1) ∧
    start_and_poll cfgA "c1" RETLSyncType.INCREMENTAL startWorldOk worldRF 2 =
      ([.request (startEndpoint "c1") "POST"
          (some [("syncType", "incremental")]),
        .request (status_endpoint "c1" "abc123") "GET" none, .sleep 10,
        .request (status_endpoint "c1" "abc123") "GET" none],
       .error (.failure (syncFailedMsg "c1" "abc123"
         (some "quota exceeded")))) := by
  refine ⟨?_, by decide⟩
  have hchain := poll_syncGo_running_chain cfg conn_id sync_id world n 0
    (fuel + 1) (fun i hi => by
      obtain ⟨b', hb', hs'⟩ := hrun i hi
      rw [Nat.zero_add]
      exact ⟨b', hb', RETLSyncStatus.RUNNING, hs', by decide, by decide⟩)
  have hstep := poll_syncGo_failed_step cfg conn_id sync_id world n fuel
    b hb hfail
  have hps : poll_sync cfg conn_id sync_id world (fuel + (n + 1)) =
      poll_syncGo cfg conn_id sync_id world 0 ((fuel + 1) + n) := by
    rw [poll_sync, show fuel + (n + 1) = (fuel + 1) + n by omega]
  rw [Nat.zero_add] at hchain
  rw [hps, hchain, hstep]
  refine ⟨rfl, ?_⟩
  rw [countRequests_append, countRequests_roundsTrace]
  rfl

/-- Witness for C5: Scenario D at the `poll_sync` level — one `running`
response then `failed` with detail `"quota exceeded"` yield exactly 2
status requests and the `SyncFailed` `Failure` with that detail. -/
theorem poll_sync_stops_on_first_failed_witness :
    poll_sync cfgA "c1" "abc123" worldRF 2 =
      (roundsTrace (status_endpoint "c1" "abc123") "GET" none 10 1 ++
        [.request (status_endpoint "c1" "abc123") "GET" none],
       .error (.failure (syncFailedMsg "c1" "abc123"
         (some "quota exceeded")))) :=
  ((poll_sync_stops_on_first_failed cfgA "c1" "abc123" worldRF 1 0
    (fun i hi => ⟨[("status", "running")], by
      interval_cases i
      exact ⟨rfl, rfl⟩⟩)
    [("status", "failed"), ("error", "quota exceeded")] rfl rfl).1).1

/-- C6: with `request_max_retries = 3` and every HTTP attempt against the
status endpoint failing at transport level, `poll_sync` makes exactly 4
attempts to the status endpoint and then raises the exhaustion `Failure`
from `make_request` — no status value is ever read or classified. -/
theorem poll_sync_status_request_exhaustion (cfg : RudderStackRETLResource)
    (conn_id sync_id : String) (world : Nat → Nat → RawResponse) (fuel : Nat)
    (hcfg : cfg.request_max_retries = 3)
    (hfail : ∀ i ≤ 3, isTransportFailure (world 0 i) = true) :
    poll_sync cfg conn_id sync_id world (fuel + 1) =
      (roundsTrace (status_endpoint conn_id sync_id) "GET" none
          cfg.request_retry_delay 3 ++
        [.request (status_endpoint conn_id sync_id) "GET" none],
       .error (.failure "Exceeded max number of retries.")) ∧
    countRequests (poll_sync cfg conn_id sync_id world (fuel + 1)).1 = 4 := by
  have hgo := make_requestGo_exhausts cfg.toBaseRudderStackResource
    (status_endpoint conn_id sync_id) "GET" none (world 0) 3 0
    (fun i hi => by
      rw [Nat.zero_add]
      exact attemptOutcome_of_transportFailure _ (hfail i hi))
  have hmr : make_request cfg.toBaseRudderStackResource
      (status_endpoint conn_id sync_id) "GET" none (world 0) =
      (roundsTrace (status_endpoint conn_id sync_id) "GET" none
          cfg.request_retry_delay 3 ++
        [.request (status_endpoint conn_id sync_id) "GET" none],
       .error (.failure "Exceeded max number of retries.")) := by
    unfold make_request
    rw [show cfg.toBaseRudderStackResource.request_max_retries = 3 from hcfg]
    exact hgo
  have hstep := poll_syncGo_error_step cfg conn_id sync_id world 0 fuel
    (.failure "Exceeded max number of retries.") (by rw [hmr])
  have hps : poll_sync cfg conn_id sync_id world (fuel + 1) =
      ((make_request cfg.toBaseRudderStackResource
        (status_endpoint conn_id sync_id) "GET" none (world 0)).1,
       .error (.failure "Exceeded max number of retries.")) := hstep
  rw [hps, hmr]
  refine ⟨rfl, ?_⟩
  rw [show ((roundsTrace (status_endpoint conn_id sync_id) "GET" none
      cfg.request_retry_delay 3 ++
      [Event.request (status_endpoint conn_id sync_id) "GET" none],
      (PollResult.error (.failure "Exceeded max number of retries."))) :
      List Event × PollResult).1 =
    roundsTrace (status_endpoint conn_id sync_id) "GET" none
      cfg.request_retry_delay 3 ++
      [Event.request (status_endpoint conn_id sync_id) "GET" none] from rfl]
  rw [countRequests_append, countRequests_roundsTrace]
  rfl

/-- Witness for C6: defaults (budget 3), every status attempt HTTP 500:
4 attempts, then the exhaustion `Failure`. -/
theorem poll_sync_status_request_exhaustion_witness :
    poll_sync cfgA "c1" "s1" (fun _ _ => .status 500 none) 1 =
      (roundsTrace (status_endpoint "c1" "s1") "GET" none 1 3 ++
        [.request (status_endpoint "c1" "s1") "GET" none],
       .error (.failure "Exceeded max number of retries.")) :=
  (poll_sync_status_request_exhaustion cfgA "c1" "s1"
    (fun _ _ => .status 500 none) 0 rfl (by decide)).1

/-- C7: a run observing `n` consecutive `running` responses before the
first terminal status issues exactly `n + 1` status requests, with a
`sync_poll_interval` sleep (the spec's poll-interval) between consecutive
ones, for every `n ≥ 0`. -/
theorem poll_sync_running_observation_count (cfg : RudderStackRETLResource)
    (conn_id sync_id : String) (world : Nat → Nat → RawResponse)
    (n fuel : Nat)
    (hrun : ∀ i, i < n → ∃ b, attemptOutcome (world i 0) = .ok b ∧
      jget b "status" = some RETLSyncStatus.RUNNING)
    (b : JObj) (hb : attemptOutcome (world n 0) = .ok b)
    (hterm : jget b "status" = some RETLSyncStatus.SUCCEEDED ∨
      jget b "status" = some RETLSyncStatus.FAILED) :
    (poll_sync cfg conn_id sync_id world (fuel + (n + 1))).1 =
      roundsTrace (status_endpoint conn_id sync_id) "GET" none
        cfg.sync_poll_interval n ++
        [.request (status_endpoint conn_id sync_id) "GET" none] ∧
    countRequests
      (poll_sync cfg conn_id sync_id world (fuel + (n + 1))).1 = n + 1 ∧
    countSleeps
      (poll_sync cfg conn_id sync_id world (fuel + (n + 1))).1 = n := by
  have hchain := poll_syncGo_running_chain cfg conn_id sync_id world n 0
    (fuel + 1) (fun i hi => by
      obtain ⟨b', hb', hs'⟩ := hrun i hi
      rw [Nat.zero_add]
      exact ⟨b', hb', RETLSyncStatus.RUNNING, hs', by decide, by decide⟩)
  rw [Nat.zero_add] at hchain
  have hps : poll_sync cfg conn_id sync_id world (fuel + (n + 1)) =
      poll_syncGo cfg conn_id sync_id world 0 ((fuel + 1) + n) := by
    rw [poll_sync, show fuel + (n + 1) = (fuel + 1) + n by omega]
  have htr : (poll_sync cfg conn_id sync_id world (fuel + (n + 1))).1 =
      roundsTrace (status_endpoint conn_id sync_id) "GET" none
        cfg.sync_poll_interval n ++
        [.request (status_endpoint conn_id sync_id) "GET" none] := by
    rcases hterm with hsu | hfa
    · have hstep := poll_syncGo_succeeded_step cfg conn_id sync_id world n
        fuel b hb hsu
      rw [hps, hchain, hstep]
    · have hstep := poll_syncGo_failed_step cfg conn_id sync_id world n
        fuel b hb hfa
      rw [hps, hchain, hstep]
  refine ⟨htr, ?_, ?_⟩
  · rw [htr, countRequests_append, countRequests_roundsTrace]
    rfl
  · rw [htr, countSleeps_append, countSleeps_roundsTrace]
    rfl

/-- Witness for C7: `running, running, succeeded` issues exactly 3 status
requests and 2 poll-interval sleeps. -/
theorem poll_sync_running_observation_count_witness :
    countRequests (poll_sync cfgA "c1" "abc123" worldRRS 3).1 = 3 ∧
    countSleeps (poll_sync cfgA "c1" "abc123" worldRRS 3).1 = 2 :=
  ⟨(poll_sync_running_observation_count cfgA "c1" "abc123" worldRRS 2 0
      (fun i hi => ⟨[("status", "running")], by
        interval_cases i <;> exact ⟨rfl, rfl⟩⟩)
      [("status", "succeeded")] rfl (Or.inl rfl)).2.1,
   (poll_sync_running_observation_count cfgA "c1" "abc123" worldRRS 2 0
      (fun i hi => ⟨[("status", "running")], by
        interval_cases i <;> exact ⟨rfl, rfl⟩⟩)
      [("status", "succeeded")] rfl (Or.inl rfl)).2.2⟩

/-- C8: `start_and_poll` is the sequential composition of `start_sync`
then `poll_sync` with no recovery: when `start_sync` raises, the
exception propagates, the whole trace is the start trace, and every
request in it targets the start endpoint (so no status request is ever
issued); only when `start_sync` returns a sync id is `poll_sync` run, on
exactly that id. -/
theorem start_and_poll_composes (cfg : RudderStackRETLResource)
    (conn_id sync_type : String) (startWorld : Nat → RawResponse)
    (pollWorld : Nat → Nat → RawResponse) (fuel : Nat) :
    (∀ e, (start_sync cfg conn_id sync_type startWorld).2 = .error e →
      start_and_poll cfg conn_id sync_type startWorld pollWorld fuel =
        ((start_sync cfg conn_id sync_type startWorld).1, .error e) ∧
      (start_and_poll cfg conn_id sync_type startWorld pollWorld fuel).1.all
        (requestLike (startEndpoint conn_id) "POST") = true) ∧
    (∀ s, (start_sync cfg conn_id sync_type startWorld).2 = .ok s →
      start_and_poll cfg conn_id sync_type startWorld pollWorld fuel =
        ((start_sync cfg conn_id sync_type startWorld).1 ++
          (poll_sync cfg conn_id s pollWorld fuel).1,
         (poll_sync cfg conn_id s pollWorld fuel).2)) := by
  constructor
  · intro e he
    have h1 := start_and_poll_error_eq cfg conn_id sync_type startWorld
      pollWorld fuel e he
    refine ⟨h1, ?_⟩
    have h2 : (start_and_poll cfg conn_id sync_type startWorld pollWorld
        fuel).1 = (make_request cfg.toBaseRudderStackResource
        (startEndpoint conn_id) "POST" (some [("syncType", sync_type)])
        startWorld).1 := by
      rw [h1]
      exact start_sync_trace cfg conn_id sync_type startWorld
    rw [h2]
    exact make_requestGo_requestLike _ _ _ _ _ _ 0
  · intro s hs
    exact start_and_poll_ok_eq cfg conn_id sync_type startWorld pollWorld
      fuel s hs

/-- Witness for C8: a failing start (all HTTP 500) propagates the
exhaustion `Failure` with a start-only trace; a successful start
continues into `poll_sync` on the returned id `"abc123"`. -/
theorem start_and_poll_composes_witness :
    (start_and_poll cfgA "c1" "incremental" world500 worldRRS 3 =
      ((start_sync cfgA "c1" "incremental" world500).1,
        .error (.failure "Exceeded max number of retries.")) ∧
     (start_and_poll cfgA "c1" "incremental" world500 worldRRS 3).1.all
       (requestLike (startEndpoint "c1") "POST") = true) ∧
    start_and_poll cfgA "c1" "incremental" startWorldOk worldRRS 3 =
      ((start_sync cfgA "c1" "incremental" startWorldOk).1 ++
        (poll_sync cfgA "c1" "abc123" worldRRS 3).1,
       (poll_sync cfgA "c1" "abc123" worldRRS 3).2) :=
  ⟨(start_and_poll_composes cfgA "c1" "incremental" world500 worldRRS 3).1
      (.failure "Exceeded max number of retries.") rfl,
   (start_and_poll_composes cfgA "c1" "incremental" startWorldOk worldRRS
      3).2 "abc123" rfl⟩

/-- C9: within one `start_and_poll` invocation the sync id is fixed once:
every request the poll loop issues is a GET on the status endpoint of the
same `(conn_id, sync_id)` pair, and after a successful start the poll
phase targets exactly the id `start_sync` returned. -/
theorem poll_requests_target_fixed_sync_id (cfg : RudderStackRETLResource)
    (conn_id sync_type : String) (startWorld : Nat → RawResponse)
    (pollWorld : Nat → Nat → RawResponse) (fuel : Nat) :
    (∀ sync_id iter,
      (poll_syncGo cfg conn_id sync_id pollWorld iter fuel).1.all
        (requestLike (status_endpoint conn_id sync_id) "GET") = true) ∧
    (∀ s, (start_sync cfg conn_id sync_type startWorld).2 = .ok s →
      (start_and_poll cfg conn_id sync_type startWorld pollWorld fuel).1 =
        (start_sync cfg conn_id sync_type startWorld).1 ++
          (poll_sync cfg conn_id s pollWorld fuel).1 ∧
      (poll_sync cfg conn_id s pollWorld fuel).1.all
        (requestLike (status_endpoint conn_id s) "GET") = true) := by
  refine ⟨fun sync_id iter =>
    poll_syncGo_requestLike cfg conn_id sync_id pollWorld fuel iter, ?_⟩
  intro s hs
  have h := start_and_poll_ok_eq cfg conn_id sync_type startWorld pollWorld
    fuel s hs
  exact ⟨by rw [h], poll_syncGo_requestLike cfg conn_id s pollWorld fuel 0⟩

/-- Witness for C9: after the start returns `"abc123"`, the whole poll
trace of Scenario C consists of GETs on
`/v2/retl-connections/c1/syncs/abc123` (and sleeps). -/
theorem poll_requests_target_fixed_sync_id_witness :
    (poll_syncGo cfgA "c1" "abc123" worldRRS 0 3).1.all
      (requestLike (status_endpoint "c1" "abc123") "GET") = true ∧
    (start_and_poll cfgA "c1" "incremental" startWorldOk worldRRS 3).1 =
      (start_sync cfgA "c1" "incremental" startWorldOk).1 ++
        (poll_sync cfgA "c1" "abc123" worldRRS 3).1 :=
  ⟨(poll_requests_target_fixed_sync_id cfgA "c1" "incremental" startWorldOk
      worldRRS 3).1 "abc123" 0,
   ((poll_requests_target_fixed_sync_id cfgA "c1" "incremental" startWorldOk
      worldRRS 3).2 "abc123" rfl).1⟩

end RudderDagster
